import Mathlib

/-!
Shallow embedding of `src/plugins/typescript/visitor.ts` (documentalist's
typedoc visitor) and theorems about it.

Modelling conventions:
* TypeScript `undefined`/absent values become `Option`.
* JavaScript runtime errors (property access on `undefined`, such as
  `def.flags.isExported` when `flags` is absent, or `def.signatures.map`
  when `signatures` is absent) become `Except.error ()`.
* The external collaborators (`renderBlock`, `resolveTypeString`,
  `resolveSignature`, and `relative(process.cwd(), ·)` from `path`) are
  injected as function-valued fields of the `Visitor` structure; their
  outputs are modelled as plain strings.
* JavaScript truthiness on the comment strings (`if (comment.shortText)`)
  is modelled as the string being nonempty; an absent string behaves the
  same as the empty string there, so a single `String` field suffices.
  The `tags` array is kept as `Option (List CommentTag)` because an empty
  array is truthy in JavaScript while `undefined` is not.
-/

set_option autoImplicit false

/-- Reflection kinds relevant to the visitor (fragment of typedoc's
`ReflectionKind` enumeration). -/
inductive ReflectionKind where
  | Project
  | Class
  | Interface
  | Method
  | Property
  | CallSignature
  | Parameter
  deriving DecidableEq, BEq, Repr

/-- A structured annotation inside a documentation comment, e.g.
`@deprecated reason` (typedoc's `CommentTag`). -/
structure CommentTag where
  tagName : String
  text : String
  deriving DecidableEq, Repr

/-- A typedoc comment: short summary, long body and an optional tag list. -/
structure Comment where
  shortText : String
  text : String
  tags : Option (List CommentTag)
  deriving DecidableEq, Repr

/-- The resolved file behind a source location (typedoc's `SourceFile`). -/
structure SourceFile where
  fullFileName : String
  deriving DecidableEq, Repr

/-- A source location entry carried by a reflection (typedoc's
`SourceReference`); the file may be unresolved. -/
structure SourceReference where
  file : Option SourceFile
  deriving DecidableEq, Repr

/-- The flag record carried by an input reflection; every field may be
absent (typedoc's `ReflectionFlags`). -/
structure ReflectionFlags where
  isExported : Option Bool
  isExternal : Option Bool
  isOptional : Option Bool
  isPrivate : Option Bool
  isProtected : Option Bool
  isPublic : Option Bool
  isRest : Option Bool
  isStatic : Option Bool
  deriving DecidableEq, Repr

/-- A node of the reflection graph.  This one type plays the role of
typedoc's `Reflection`, `ContainerReflection`, `DeclarationReflection`,
`SignatureReflection` and `ParameterReflection`: fields that a particular
node kind does not carry are simply absent (`none` / `[]`), which matches
the dynamic nature of the JavaScript objects the visitor traverses. -/
inductive Reflection where
  | mk (name : String) (kind : ReflectionKind) (comment : Option Comment)
      (flags : Option ReflectionFlags) (sources : Option (List SourceReference))
      (defaultValue : Option String) (type : Option String)
      (signatures : Option (List Reflection))
      (parameters : Option (List Reflection))
      (children : List Reflection)

def Reflection.name : Reflection → String
  | .mk n _ _ _ _ _ _ _ _ _ => n

def Reflection.kind : Reflection → ReflectionKind
  | .mk _ k _ _ _ _ _ _ _ _ => k

def Reflection.comment : Reflection → Option Comment
  | .mk _ _ c _ _ _ _ _ _ _ => c

def Reflection.flags : Reflection → Option ReflectionFlags
  | .mk _ _ _ f _ _ _ _ _ _ => f

def Reflection.sources : Reflection → Option (List SourceReference)
  | .mk _ _ _ _ s _ _ _ _ _ => s

def Reflection.defaultValue : Reflection → Option String
  | .mk _ _ _ _ _ d _ _ _ _ => d

def Reflection.type : Reflection → Option String
  | .mk _ _ _ _ _ _ t _ _ _ => t

def Reflection.signatures : Reflection → Option (List Reflection)
  | .mk _ _ _ _ _ _ _ s _ _ => s

def Reflection.parameters : Reflection → Option (List Reflection)
  | .mk _ _ _ _ _ _ _ _ p _ => p

def Reflection.children : Reflection → List Reflection
  | .mk _ _ _ _ _ _ _ _ _ c => c

/-- Children of a container reflection restricted to one kind (typedoc's
`ContainerReflection.getChildrenByKind`), preserving order. -/
def Reflection.getChildrenByKind (d : Reflection) (k : ReflectionKind) : List Reflection :=
  d.children.filter (fun c => c.kind == k)

/-- The root project reflection: it owns the registry of all reflections
discovered during the external parse, in discovery order. -/
structure ProjectReflection where
  reflections : List Reflection

/-- All reflections of one kind, in discovery order (typedoc's
`ProjectReflection.getReflectionsByKind`). -/
def ProjectReflection.getReflectionsByKind (p : ProjectReflection) (k : ReflectionKind) :
    List Reflection :=
  p.reflections.filter (fun r => r.kind == k)

/-- Output kind tags, the `Kind` enumeration of `client/typescript`. -/
inductive Kind where
  | Class
  | Interface
  | Method
  | Parameter
  | Property
  | Signature
  deriving DecidableEq, Repr

/-- Derived flag record of an output entry (`ITsFlags`): `isDeprecated`
is `boolean | string` in the source, modelled as `Sum Bool String`. -/
structure ITsFlags where
  isDeprecated : Option (Sum Bool String)
  isExported : Option Bool
  isExternal : Option Bool
  isOptional : Option Bool
  isPrivate : Option Bool
  isProtected : Option Bool
  isPublic : Option Bool
  isRest : Option Bool
  isStatic : Option Bool
  deriving DecidableEq, Repr

/-- Fields shared by every document entry (the result of `makeDocEntry`,
`IDocEntry` in `client/typescript`).  A rendered documentation block is
modelled as the renderer's output string. -/
structure IDocBase where
  documentation : Option String
  fileName : Option String
  flags : Option ITsFlags
  kind : Kind
  name : String
  deriving DecidableEq, Repr

/-- Output entry for a method parameter (`ITsMethodParameter`). -/
structure ITsMethodParameter extends IDocBase where
  defaultValue : Option String
  type : String
  deriving DecidableEq, Repr

/-- Output entry for a call signature (`ITsMethodSignature`). -/
structure ITsMethodSignature extends IDocBase where
  parameters : List ITsMethodParameter
  returnType : String
  type : String
  deriving DecidableEq, Repr

/-- Output entry for a method (`ITsMethod`). -/
structure ITsMethod extends IDocBase where
  signatures : List ITsMethodSignature
  deriving DecidableEq, Repr

/-- Output entry for a property (`ITsProperty`). -/
structure ITsProperty extends IDocBase where
  defaultValue : Option String
  type : String
  deriving DecidableEq, Repr

/-- Output entry for an interface (`ITsInterface`).  `ITsClass` is the
same record with the kind tag overridden to `Kind.Class`, so the model
reuses this structure for both. -/
structure ITsInterface extends IDocBase where
  methods : List ITsMethod
  properties : List ITsProperty
  deriving DecidableEq, Repr

/-- The recognized plugin options (`ITypescriptPluginOptions`):
`includeNonExported` is an optional boolean. -/
structure ITypescriptPluginOptions where
  includeNonExported : Option Bool
  deriving DecidableEq, Repr

/-- The visitor together with its injected collaborators: the compiler's
`renderBlock`, the two type-string resolvers, the `relative(process.cwd(), ·)`
path helper, and the plugin options. -/
structure Visitor where
  renderBlock : String → String
  resolveTypeString : Option String → String
  resolveSignature : Reflection → String
  relativeToCwd : String → String
  options : ITypescriptPluginOptions

/-- Finds a tag of the given name on a comment (`getCommentTag`).
Both a missing comment and a missing tag list yield `none`. -/
def getCommentTag (comment : Option Comment) (tagName : String) : Option CommentTag :=
  match comment with
  | none => none
  | some c =>
    match c.tags with
    | none => none
    | some tags => tags.find? (fun tag => tag.tagName == tagName)

/-- JavaScript's `String.prototype.trim`: drop whitespace characters
from both ends of the string.  (Defined by structural recursion over the
character list so that it evaluates inside the kernel; Lean's own
`String.trim` computes the same strings but is defined by well-founded
recursion over byte positions.) -/
def jsTrim (s : String) : String :=
  ⟨(((s.data.dropWhile Char.isWhitespace).reverse.dropWhile Char.isWhitespace).reverse)⟩

/-- Default-value derivation (`getDefaultValue`): the explicit default
value wins verbatim; otherwise the trimmed text of a `@default` tag;
otherwise absent. -/
def getDefaultValue (ref : Reflection) : Option String :=
  match ref.defaultValue with
  | some v => some v
  | none =>
    match getCommentTag ref.comment "default" with
    | some tag => some (jsTrim tag.text)
    | none => none

/-- Deprecation derivation (`getIsDeprecated`): absent without a
`@deprecated` tag; `true` when the tag text trims to empty; otherwise the
trimmed text. -/
def getIsDeprecated (ref : Reflection) : Option (Sum Bool String) :=
  match getCommentTag ref.comment "deprecated" with
  | none => none
  | some tag =>
    let text := jsTrim tag.text
    if text == "" then some (Sum.inl true) else some (Sum.inr text)

/-- Flag derivation (`getFlags`): absent when the reflection carries no
flags, otherwise a record of `isDeprecated` plus pass-through copies. -/
def getFlags (ref : Reflection) : Option ITsFlags :=
  match ref.flags with
  | none => none
  | some fl =>
    some { isDeprecated := getIsDeprecated ref
           isExported := fl.isExported
           isExternal := fl.isExternal
           isOptional := fl.isOptional
           isPrivate := fl.isPrivate
           isProtected := fl.isProtected
           isPublic := fl.isPublic
           isRest := fl.isRest
           isStatic := fl.isStatic }

/-- File-name derivation (`getFileName`): the first source entry's
resolved full file name made relative to the working directory; absent
when there is no source entry or no resolved file.  An empty full file
name is falsy in JavaScript, so it is returned as-is (`fileName &&
relative(cwd, fileName)`). -/
def getFileName (rel : String → String) (ref : Reflection) : Option String :=
  match (ref.sources.getD []).head? with
  | none => none
  | some source =>
    match source.file with
    | none => none
    | some f =>
      if f.fullFileName == "" then some f.fullFileName
      else some (rel f.fullFileName)

/-- The plain text `renderComment` assembles before handing it to the
renderer: short text, then a blank line and the body when present, then a
blank line and the non-`@default`/non-`@deprecated` tags, one per line. -/
def assembleComment (comment : Comment) : String :=
  let documentation := ""
  let documentation :=
    if comment.shortText == "" then documentation
    else documentation ++ comment.shortText
  let documentation :=
    if comment.text == "" then documentation
    else documentation ++ "\n\n" ++ comment.text
  match comment.tags with
  | none => documentation
  | some tags =>
    documentation ++ "\n\n" ++
      String.intercalate "\n"
        ((tags.filter
            (fun tag => !(tag.tagName == "default") && !(tag.tagName == "deprecated"))).map
          (fun tag => "@" ++ tag.tagName ++ " " ++ tag.text))

/-- Sequential effectful filter over a list: the predicate is evaluated
left to right and the first error aborts, matching how a thrown exception
propagates out of `Array.prototype.filter`. -/
def filterE {α : Type} (p : α → Except Unit Bool) : List α → Except Unit (List α)
  | [] => Except.ok []
  | x :: xs => do
    let b ← p x
    let rest ← filterE p xs
    pure (if b then x :: rest else rest)

/-- Sequential effectful map over a list, matching `Array.prototype.map`
with a possibly-throwing callback. -/
def mapE {α β : Type} (f : α → Except Unit β) : List α → Except Unit (List β)
  | [] => Except.ok []
  | x :: xs => do
    let y ← f x
    let ys ← mapE f xs
    pure (y :: ys)

namespace Visitor

/-- Export filter (`filterReflection`): `def.flags.isExported === true ||
options.includeNonExported === true`.  Accessing `isExported` on an absent
flags object is a JavaScript `TypeError`, modelled as `Except.error`. -/
def filterReflection (v : Visitor) (ref : Reflection) : Except Unit Bool :=
  match ref.flags with
  | none => Except.error ()
  | some fl =>
    Except.ok (fl.isExported == some true || v.options.includeNonExported == some true)

/-- Visits each child that passes the filter condition (`visitChildren`):
`children.filter(this.filterReflection).map(visitor)`. -/
def visitChildren {T : Type} (v : Visitor) (children : List Reflection)
    (visitor : Reflection → Except Unit T) : Except Unit (List T) := do
  let filtered ← filterE (v.filterReflection) children
  mapE visitor filtered

/-- Converts a typedoc comment to a rendered block (`renderComment`):
absent comment gives absent documentation, otherwise the assembled plain
text is passed to the injected renderer. -/
def renderComment (v : Visitor) (comment : Option Comment) : Option String :=
  match comment with
  | none => none
  | some c => some (v.renderBlock (assembleComment c))

/-- The base document entry shared by every kind (`makeDocEntry`). -/
def makeDocEntry (v : Visitor) (d : Reflection) (kind : Kind) : IDocBase :=
  { documentation := v.renderComment d.comment
    fileName := getFileName v.relativeToCwd d
    flags := getFlags d
    kind := kind
    name := d.name }

/-- Parameter mapping (`visitParameter`). -/
def visitParameter (v : Visitor) (param : Reflection) : ITsMethodParameter :=
  { toIDocBase := v.makeDocEntry param Kind.Parameter
    defaultValue := getDefaultValue param
    type := v.resolveTypeString param.type }

/-- Property mapping (`visitProperty`). -/
def visitProperty (v : Visitor) (d : Reflection) : ITsProperty :=
  { toIDocBase := v.makeDocEntry d Kind.Property
    defaultValue := getDefaultValue d
    type := v.resolveTypeString d.type }

/-- Signature mapping (`visitSignature`): `(sig.parameters || [])` maps an
absent parameter list to the empty list, and every parameter is visited
with no filtering. -/
def visitSignature (v : Visitor) (sig : Reflection) : ITsMethodSignature :=
  { toIDocBase := v.makeDocEntry sig Kind.Signature
    parameters := (sig.parameters.getD []).map (fun p => v.visitParameter p)
    returnType := v.resolveTypeString sig.type
    type := v.resolveSignature sig }

/-- Method mapping (`visitMethod`): `def.signatures.map(...)` assumes the
signature list is present; an absent list raises. -/
def visitMethod (v : Visitor) (d : Reflection) : Except Unit ITsMethod :=
  match d.signatures with
  | none => Except.error ()
  | some sigs =>
    Except.ok
      { toIDocBase := v.makeDocEntry d Kind.Method
        signatures := sigs.map (fun s => v.visitSignature s) }

/-- Interface mapping (`visitInterface`): base entry plus filtered,
visited method and property children. -/
def visitInterface (v : Visitor) (d : Reflection) : Except Unit ITsInterface := do
  let methods ← v.visitChildren (d.getChildrenByKind ReflectionKind.Method)
    (fun c => v.visitMethod c)
  let properties ← v.visitChildren (d.getChildrenByKind ReflectionKind.Property)
    (fun c => Except.ok (v.visitProperty c))
  pure { toIDocBase := v.makeDocEntry d Kind.Interface
         methods := methods
         properties := properties }

/-- Class mapping (`visitClass`): the interface mapping with the kind tag
overridden to `Kind.Class` (the object-spread `{...visitInterface(def),
kind: Kind.Class}`). -/
def visitClass (v : Visitor) (d : Reflection) : Except Unit ITsInterface := do
  let i ← v.visitInterface d
  pure { i with kind := Kind.Class }

/-- Project traversal (`visitProject`): filtered, visited interface-kind
reflections first, then filtered, visited class-kind reflections. -/
def visitProject (v : Visitor) (p : ProjectReflection) : Except Unit (List ITsInterface) := do
  let interfaces ← v.visitChildren (p.getReflectionsByKind ReflectionKind.Interface)
    (fun d => v.visitInterface d)
  let classes ← v.visitChildren (p.getReflectionsByKind ReflectionKind.Class)
    (fun d => v.visitClass d)
  pure (interfaces ++ classes)

end Visitor

/-! Well-formedness conditions under which the traversal cannot raise.
These are stated over the embedded accessors and are used as hypotheses;
they are not part of the source program. -/

/-- A container's children are safe to visit: every method or property
child carries a flags object (read by `filterReflection`) and every
method child carries a signatures list (read by `visitMethod`). -/
def containerWF (d : Reflection) : Bool :=
  (d.getChildrenByKind ReflectionKind.Method).all
    (fun c => c.flags.isSome && c.signatures.isSome) &&
  (d.getChildrenByKind ReflectionKind.Property).all (fun c => c.flags.isSome)

/-- A project is safe to visit: every top-level interface-kind and
class-kind reflection carries a flags object and is itself a safe
container. -/
def projectWF (p : ProjectReflection) : Bool :=
  (p.getReflectionsByKind ReflectionKind.Interface).all
    (fun r => r.flags.isSome && containerWF r) &&
  (p.getReflectionsByKind ReflectionKind.Class).all
    (fun r => r.flags.isSome && containerWF r)

/-! Concrete inputs used by the counterexamples and witnesses. -/

/-- A concrete visitor whose renderer is the identity, whose resolvers
return fixed strings, and whose `includeNonExported` option is unset. -/
def vOff : Visitor :=
  { renderBlock := fun s => s
    resolveTypeString := fun t => t.getD "void"
    resolveSignature := fun _ => "() => void"
    relativeToCwd := fun s => s
    options := { includeNonExported := none } }

/-- Like `vOff` but with `includeNonExported` explicitly set to `false`. -/
def vFalse : Visitor :=
  { vOff with options := { includeNonExported := some false } }

/-- Like `vOff` but with `includeNonExported` explicitly set to `true`. -/
def vOn : Visitor :=
  { vOff with options := { includeNonExported := some true } }

/-- Flags of an exported reflection. -/
def exportedFlags : ReflectionFlags :=
  { isExported := some true, isExternal := none, isOptional := none,
    isPrivate := none, isProtected := none, isPublic := none,
    isRest := none, isStatic := none }

/-- Flags of a non-exported reflection. -/
def nonExportedFlags : ReflectionFlags :=
  { isExported := some false, isExternal := none, isOptional := none,
    isPrivate := none, isProtected := none, isPublic := none,
    isRest := none, isStatic := none }

/-- A non-exported parameter reflection named `p`. -/
def exParamC1 : Reflection :=
  .mk "p" ReflectionKind.Parameter none (some nonExportedFlags) none none
    (some "number") none none []

/-- A signature reflection whose single parameter is `exParamC1`. -/
def exSigC1 : Reflection :=
  .mk "sig" ReflectionKind.CallSignature none none none none (some "string")
    none (some [exParamC1]) []

/-- An exported method reflection that carries no signatures list. -/
def exMethodC2 : Reflection :=
  .mk "m" ReflectionKind.Method none (some exportedFlags) none none none
    none none []

/-- An exported interface whose only child is the signature-less method
`exMethodC2`. -/
def exIfaceC2 : Reflection :=
  .mk "I" ReflectionKind.Interface none (some exportedFlags) none none none
    none none [exMethodC2]

/-- A project containing only `exIfaceC2`. -/
def exProjectC2 : ProjectReflection := ⟨[exIfaceC2]⟩

/-- An exported method with one empty signature list. -/
def exMethodOk : Reflection :=
  .mk "m" ReflectionKind.Method none (some exportedFlags) none none none
    (some []) none []

/-- An exported interface whose only child is the well-formed method
`exMethodOk`. -/
def exIfaceOk : Reflection :=
  .mk "I" ReflectionKind.Interface none (some exportedFlags) none none none
    none none [exMethodOk]

/-- An exported, childless class reflection named `C`. -/
def exClassOk : Reflection :=
  .mk "C" ReflectionKind.Class none (some exportedFlags) none none none
    none none []

/-- A well-formed project holding one interface and one class. -/
def exProjectOk : ProjectReflection := ⟨[exIfaceOk, exClassOk]⟩

/-- A non-exported method reflection with an empty signature list. -/
def exMethodC3 : Reflection :=
  .mk "hidden" ReflectionKind.Method none (some nonExportedFlags) none none
    none (some []) none []

/-- The document entry `visitMethod` produces for `exMethodC3`. -/
def exMethodC3Out : ITsMethod :=
  { documentation := none, fileName := none,
    flags := some { isDeprecated := none, isExported := some false,
                    isExternal := none, isOptional := none, isPrivate := none,
                    isProtected := none, isPublic := none, isRest := none,
                    isStatic := none },
    kind := Kind.Method, name := "hidden", signatures := [] }

/-- The document entry `visitMethod` produces for `exMethodOk`. -/
def exMethodOkOut : ITsMethod :=
  { documentation := none, fileName := none,
    flags := some { isDeprecated := none, isExported := some true,
                    isExternal := none, isOptional := none, isPrivate := none,
                    isProtected := none, isPublic := none, isRest := none,
                    isStatic := none },
    kind := Kind.Method, name := "m", signatures := [] }

/-- The document entry `visitInterface` produces for `exIfaceOk`. -/
def exIfaceOkOut : ITsInterface :=
  { documentation := none, fileName := none,
    flags := some { isDeprecated := none, isExported := some true,
                    isExternal := none, isOptional := none, isPrivate := none,
                    isProtected := none, isPublic := none, isRest := none,
                    isStatic := none },
    kind := Kind.Interface, name := "I",
    methods := [exMethodOkOut], properties := [] }

/-- The document entry `visitClass` produces for `exClassOk`. -/
def exClassOkOut : ITsInterface :=
  { documentation := none, fileName := none,
    flags := some { isDeprecated := none, isExported := some true,
                    isExternal := none, isOptional := none, isPrivate := none,
                    isProtected := none, isPublic := none, isRest := none,
                    isStatic := none },
    kind := Kind.Class, name := "C", methods := [], properties := [] }

/-- The tag list of the C4 example comment: a `@deprecated` tag with
empty text followed by a `@param` tag. -/
def exTagsC4 : List CommentTag :=
  [{ tagName := "deprecated", text := "" },
   { tagName := "param", text := "x: the value" }]

/-- The comment of the C4 example: short text `S`, body `T`, and the
tags `exTagsC4`. -/
def exCommentC4 : Comment :=
  { shortText := "S", text := "T", tags := some exTagsC4 }

/-- A reflection whose comment carries `@deprecated  not worth it  `. -/
def exReflC5 : Reflection :=
  .mk "old" ReflectionKind.Property
    (some { shortText := "", text := "",
            tags := some [{ tagName := "deprecated", text := "  not worth it  " }] })
    none none none none none none []

/-- A reflection with no explicit default value and a `@default` tag with
text `"  42  "`. -/
def exReflC6 : Reflection :=
  .mk "opt" ReflectionKind.Property
    (some { shortText := "", text := "",
            tags := some [{ tagName := "default", text := "  42  " }] })
    none none none none none none []

/-- A reflection carrying the explicit default value `"explicit"` and a
conflicting `@default other` tag. -/
def exReflC6both : Reflection :=
  .mk "opt2" ReflectionKind.Property
    (some { shortText := "", text := "",
            tags := some [{ tagName := "default", text := "other" }] })
    none none (some "explicit") none none none []

/-- An exported, childless interface reflection named `E`. -/
def exIfaceEmpty : Reflection :=
  .mk "E" ReflectionKind.Interface none (some exportedFlags) none none none
    none none []

/-- The document entry `visitInterface` produces for `exIfaceEmpty`. -/
def exIfaceEmptyOut : ITsInterface :=
  { documentation := none, fileName := none,
    flags := some { isDeprecated := none, isExported := some true,
                    isExternal := none, isOptional := none, isPrivate := none,
                    isProtected := none, isPublic := none, isRest := none,
                    isStatic := none },
    kind := Kind.Interface, name := "E", methods := [], properties := [] }

/-- A signature reflection with an absent (undefined) parameter list. -/
def exSigNoParams : Reflection :=
  .mk "sig" ReflectionKind.CallSignature none none none none none none
    none []

/-! General lemmas about the effectful list combinators and the visitor. -/

theorem except_bind_ok {ε α β : Type} (a : α) (f : α → Except ε β) :
    (Except.ok a >>= f) = f a := rfl

theorem except_bind_error {ε α β : Type} (e : ε) (f : α → Except ε β) :
    ((Except.error e : Except ε α) >>= f) = Except.error e := rfl

theorem filterE_middle_false {α : Type} (p : α → Except Unit Bool) (c : α)
    (hc : p c = Except.ok false) :
    ∀ (pre post : List α), filterE p (pre ++ c :: post) = filterE p (pre ++ post)
  | [], post => by
    simp only [List.nil_append, filterE, hc, except_bind_ok]
    cases h : filterE p post <;> simp [h]
  | a :: pre, post => by
    simp only [List.cons_append, filterE, List.append_eq]
    rw [filterE_middle_false p c hc pre post]

theorem filterE_middle_true_mem {α : Type} (p : α → Except Unit Bool) (c : α)
    (hc : p c = Except.ok true) :
    ∀ (pre post l' : List α), filterE p (pre ++ c :: post) = Except.ok l' → c ∈ l'
  | [], post, l', h => by
    simp only [List.nil_append, filterE, hc, except_bind_ok] at h
    cases h2 : filterE p post with
    | error e => rw [h2] at h; exact absurd h (by simp [except_bind_error])
    | ok rest =>
      rw [h2] at h
      simp only [except_bind_ok] at h
      cases h
      exact List.mem_cons_self _ _
  | a :: pre, post, l', h => by
    simp only [List.cons_append, filterE, List.append_eq] at h
    cases h1 : p a with
    | error e => rw [h1] at h; exact absurd h (by simp [except_bind_error])
    | ok b =>
      rw [h1] at h
      simp only [except_bind_ok] at h
      cases h2 : filterE p (pre ++ c :: post) with
      | error e => rw [h2] at h; exact absurd h (by simp [except_bind_error])
      | ok rest =>
        rw [h2] at h
        simp only [except_bind_ok] at h
        have hmem := filterE_middle_true_mem p c hc pre post rest h2
        cases h
        cases b with
        | true => exact List.mem_cons_of_mem _ hmem
        | false => exact hmem

theorem mapE_ok_mem {α β : Type} (f : α → Except Unit β) :
    ∀ (l : List α) (out : List β), mapE f l = Except.ok out →
      ∀ x ∈ l, ∃ y, f x = Except.ok y ∧ y ∈ out
  | [], out, _, x, hx => absurd hx (List.not_mem_nil x)
  | a :: l, out, h, x, hx => by
    simp only [mapE] at h
    cases h1 : f a with
    | error e => rw [h1] at h; exact absurd h (by simp [except_bind_error])
    | ok y =>
      rw [h1] at h
      simp only [except_bind_ok] at h
      cases h2 : mapE f l with
      | error e => rw [h2] at h; exact absurd h (by simp [except_bind_error])
      | ok ys =>
        rw [h2] at h
        simp only [except_bind_ok] at h
        cases h
        rcases List.mem_cons.mp hx with hx | hx
        · exact ⟨y, hx ▸ h1, List.mem_cons_self _ _⟩
        · obtain ⟨z, hz, hzm⟩ := mapE_ok_mem f l ys h2 x hx
          exact ⟨z, hz, List.mem_cons_of_mem _ hzm⟩

theorem filterE_sublist {α : Type} (p : α → Except Unit Bool) :
    ∀ (l l' : List α), filterE p l = Except.ok l' → l'.Sublist l
  | [], l', h => by
    simp only [filterE] at h
    cases h
    exact List.Sublist.refl []
  | a :: l, l', h => by
    simp only [filterE] at h
    cases h1 : p a with
    | error e => rw [h1] at h; exact absurd h (by simp [except_bind_error])
    | ok b =>
      rw [h1] at h
      simp only [except_bind_ok] at h
      cases h2 : filterE p l with
      | error e => rw [h2] at h; exact absurd h (by simp [except_bind_error])
      | ok rest =>
        rw [h2] at h
        simp only [except_bind_ok] at h
        cases h
        have hsub := filterE_sublist p l rest h2
        cases b with
        | true => exact hsub.cons₂ a
        | false => exact hsub.cons a

theorem filterE_isOk {α : Type} (p : α → Except Unit Bool) :
    ∀ (l : List α), (∀ x ∈ l, ∃ b, p x = Except.ok b) →
      ∃ l', filterE p l = Except.ok l'
  | [], _ => ⟨[], rfl⟩
  | a :: l, hall => by
    obtain ⟨b, hb⟩ := hall a (List.mem_cons_self a l)
    obtain ⟨rest, hrest⟩ :=
      filterE_isOk p l (fun x hx => hall x (List.mem_cons_of_mem a hx))
    exact ⟨if b then a :: rest else rest, by
      simp [filterE, hb, hrest, except_bind_ok]⟩

theorem mapE_isOk {α β : Type} (f : α → Except Unit β) :
    ∀ (l : List α), (∀ x ∈ l, ∃ y, f x = Except.ok y) →
      ∃ out, mapE f l = Except.ok out
  | [], _ => ⟨[], rfl⟩
  | a :: l, hall => by
    obtain ⟨y, hy⟩ := hall a (List.mem_cons_self a l)
    obtain ⟨ys, hys⟩ := mapE_isOk f l (fun x hx => hall x (List.mem_cons_of_mem a hx))
    exact ⟨y :: ys, by simp [mapE, hy, hys, except_bind_ok]⟩

theorem mapE_forall {α β : Type} (f : α → Except Unit β) (P : β → Prop)
    (hf : ∀ x y, f x = Except.ok y → P y) :
    ∀ (l : List α) (out : List β), mapE f l = Except.ok out → ∀ y ∈ out, P y := by
  intro l out h y hy
  induction l generalizing out with
  | nil =>
    simp only [mapE] at h
    cases h
    exact absurd hy (List.not_mem_nil y)
  | cons a l ih =>
    simp only [mapE] at h
    cases h1 : f a with
    | error e => rw [h1] at h; exact absurd h (by simp [except_bind_error])
    | ok z =>
      rw [h1] at h
      simp only [except_bind_ok] at h
      cases h2 : mapE f l with
      | error e => rw [h2] at h; exact absurd h (by simp [except_bind_error])
      | ok zs =>
        rw [h2] at h
        simp only [except_bind_ok] at h
        cases h
        rcases List.mem_cons.mp hy with hy | hy
        · exact hy ▸ hf a z h1
        · exact ih zs h2 hy

theorem visitChildren_eq_ok {T : Type} (v : Visitor) (l : List Reflection)
    (vis : Reflection → Except Unit T) (out : List T) :
    v.visitChildren l vis = Except.ok out ↔
      ∃ l', filterE (v.filterReflection) l = Except.ok l' ∧
        mapE vis l' = Except.ok out := by
  unfold Visitor.visitChildren
  cases h : filterE (v.filterReflection) l <;>
    simp [h, except_bind_ok, except_bind_error]

theorem filterReflection_of_flags (v : Visitor) (r : Reflection)
    (fl : ReflectionFlags) (h : r.flags = some fl) :
    v.filterReflection r =
      Except.ok (fl.isExported == some true ||
        v.options.includeNonExported == some true) := by
  simp [Visitor.filterReflection, h]

theorem filterReflection_isOk (v : Visitor) (r : Reflection)
    (h : r.flags.isSome) : ∃ b, v.filterReflection r = Except.ok b := by
  obtain ⟨fl, hfl⟩ := Option.isSome_iff_exists.mp h
  exact ⟨_, filterReflection_of_flags v r fl hfl⟩

theorem visitMethod_isOk (v : Visitor) (d : Reflection)
    (h : d.signatures.isSome) : ∃ y, v.visitMethod d = Except.ok y := by
  obtain ⟨sigs, hs⟩ := Option.isSome_iff_exists.mp h
  exact ⟨{ toIDocBase := v.makeDocEntry d Kind.Method,
           signatures := sigs.map (fun s => v.visitSignature s) },
         by simp [Visitor.visitMethod, hs]⟩

theorem visitChildren_isOk {T : Type} (v : Visitor) (l : List Reflection)
    (vis : Reflection → Except Unit T)
    (hflags : ∀ x ∈ l, x.flags.isSome)
    (hvis : ∀ x ∈ l, ∃ y, vis x = Except.ok y) :
    ∃ out, v.visitChildren l vis = Except.ok out := by
  obtain ⟨l', hl'⟩ :=
    filterE_isOk _ l (fun x hx => filterReflection_isOk v x (hflags x hx))
  obtain ⟨out, hout⟩ :=
    mapE_isOk vis l' (fun x hx => hvis x ((filterE_sublist _ l l' hl').subset hx))
  exact ⟨out, (visitChildren_eq_ok v l vis out).mpr ⟨l', hl', hout⟩⟩

theorem visitInterface_isOk (v : Visitor) (d : Reflection)
    (h : containerWF d = true) : ∃ i, v.visitInterface d = Except.ok i := by
  simp only [containerWF, Bool.and_eq_true, List.all_eq_true] at h
  obtain ⟨hm, hp⟩ := h
  obtain ⟨ms, hms⟩ :=
    visitChildren_isOk v (d.getChildrenByKind ReflectionKind.Method)
      (fun c => v.visitMethod c)
      (fun x hx => by
        have hx2 := hm x hx
        simp only [Bool.and_eq_true] at hx2
        exact hx2.1)
      (fun x hx => by
        have hx2 := hm x hx
        simp only [Bool.and_eq_true] at hx2
        exact visitMethod_isOk v x hx2.2)
  obtain ⟨ps, hps⟩ :=
    visitChildren_isOk v (d.getChildrenByKind ReflectionKind.Property)
      (fun c => Except.ok (v.visitProperty c))
      (fun x hx => hp x hx)
      (fun x _ => ⟨v.visitProperty x, rfl⟩)
  exact ⟨{ toIDocBase := v.makeDocEntry d Kind.Interface,
           methods := ms, properties := ps },
         by simp [Visitor.visitInterface, hms, hps, except_bind_ok]⟩

theorem visitInterface_ok_kind (v : Visitor) (d : Reflection)
    (i : ITsInterface) (h : v.visitInterface d = Except.ok i) :
    i.kind = Kind.Interface := by
  unfold Visitor.visitInterface at h
  cases h1 : v.visitChildren (d.getChildrenByKind ReflectionKind.Method)
      (fun c => v.visitMethod c) with
  | error e => rw [h1] at h; exact absurd h (by simp [except_bind_error])
  | ok ms =>
    rw [h1] at h
    simp only [except_bind_ok] at h
    cases h2 : v.visitChildren (d.getChildrenByKind ReflectionKind.Property)
        (fun c => Except.ok (v.visitProperty c)) with
    | error e => rw [h2] at h; exact absurd h (by simp [except_bind_error])
    | ok ps =>
      rw [h2] at h
      simp only [except_bind_ok, pure] at h
      cases h
      simp [Visitor.makeDocEntry]

theorem visitClass_ok_iff (v : Visitor) (d : Reflection) (c : ITsInterface) :
    v.visitClass d = Except.ok c ↔
      ∃ i, v.visitInterface d = Except.ok i ∧
        c = { i with kind := Kind.Class } := by
  unfold Visitor.visitClass
  cases h : v.visitInterface d <;>
    simp [h, except_bind_ok, except_bind_error, eq_comm]

theorem visitClass_ok_kind (v : Visitor) (d : Reflection) (c : ITsInterface)
    (h : v.visitClass d = Except.ok c) : c.kind = Kind.Class := by
  obtain ⟨i, _, hc⟩ := (visitClass_ok_iff v d c).mp h
  rw [hc]

theorem visitProject_eq_ok (v : Visitor) (p : ProjectReflection)
    (out : List ITsInterface) :
    v.visitProject p = Except.ok out ↔
      ∃ interfaces classes,
        v.visitChildren (p.getReflectionsByKind ReflectionKind.Interface)
          (fun d => v.visitInterface d) = Except.ok interfaces ∧
        v.visitChildren (p.getReflectionsByKind ReflectionKind.Class)
          (fun d => v.visitClass d) = Except.ok classes ∧
        out = interfaces ++ classes := by
  unfold Visitor.visitProject
  cases h1 : v.visitChildren (p.getReflectionsByKind ReflectionKind.Interface)
      (fun d => v.visitInterface d) with
  | error e => simp [h1, except_bind_error]
  | ok interfaces =>
    cases h2 : v.visitChildren (p.getReflectionsByKind ReflectionKind.Class)
        (fun d => v.visitClass d) with
    | error e => simp [h1, h2, except_bind_ok, except_bind_error]
    | ok classes => simp [h1, h2, except_bind_ok, eq_comm]

theorem string_empty_append (s : String) : "" ++ s = s := by
  ext1
  simp [String.data_append]

/-! Claim theorems. -/

/-- C1 counterexample: the single parameter of `exSigC1` has
`isExported = some false` and the visitor's `includeNonExported` option
is explicitly `false`, yet `visitSignature` includes the parameter in the
output parameter list — so the per-child export filter does not apply to
parameters the way the claim states. -/
theorem C1_counterexample :
    vFalse.options.includeNonExported = some false ∧
    exParamC1.flags = some nonExportedFlags ∧
    nonExportedFlags.isExported = some false ∧
    exSigC1.parameters = some [exParamC1] ∧
    (vFalse.visitSignature exSigC1).parameters.map (fun p => p.name) = ["p"] :=
  ⟨rfl, rfl, rfl, rfl, rfl⟩

/-- C1 (amended): `visitSignature` applies no export filter to parameter
children at all: every parameter is mapped to exactly one output entry,
in order, regardless of its exported flag and of `includeNonExported`
(the filter applies only where `visitChildren` is used, i.e. to methods,
properties and top-level interfaces/classes). -/
theorem C1_parameters_unfiltered (v : Visitor) (sig : Reflection) :
    (v.visitSignature sig).parameters.map (fun p => p.name) =
      (sig.parameters.getD []).map Reflection.name := by
  simp [Visitor.visitSignature, Visitor.visitParameter, Visitor.makeDocEntry,
    List.map_map, Function.comp]

/-- C1 witness: on a concrete signature, the amended statement evaluates. -/
theorem C1_parameters_unfiltered_witness :
    (vFalse.visitSignature exSigC1).parameters.map (fun p => p.name) =
      (exSigC1.parameters.getD []).map Reflection.name :=
  C1_parameters_unfiltered vFalse exSigC1

/-- C2 counterexample: `exProjectC2` holds one exported interface whose
only child is an exported method with no signatures list; visiting the
project raises (models the `TypeError` from `def.signatures.map`) instead
of degrading to an absent value. -/
theorem C2_counterexample :
    exMethodC2.signatures = none ∧
    vOff.visitProject exProjectC2 = Except.error () :=
  ⟨rfl, rfl⟩

/-- C2 (amended): the traversal raises no error provided every top-level
interface-kind or class-kind reflection carries a flags object (read by
`filterReflection`) and every method or property child carries a flags
object with every method child also carrying a signatures list (read by
`visitMethod`); all other missing data (comment, default value, source
location, tags, parameters) degrades to an absent value. -/
theorem C2_no_failure_when_wellformed (v : Visitor) (p : ProjectReflection)
    (h : projectWF p = true) :
    ∃ out, v.visitProject p = Except.ok out := by
  simp only [projectWF, Bool.and_eq_true, List.all_eq_true] at h
  obtain ⟨hi, hc⟩ := h
  obtain ⟨interfaces, his⟩ :=
    visitChildren_isOk v (p.getReflectionsByKind ReflectionKind.Interface)
      (fun d => v.visitInterface d)
      (fun x hx => by
        have hx2 := hi x hx
        simp only [Bool.and_eq_true] at hx2
        exact hx2.1)
      (fun x hx => by
        have hx2 := hi x hx
        simp only [Bool.and_eq_true] at hx2
        exact visitInterface_isOk v x hx2.2)
  obtain ⟨classes, hcs⟩ :=
    visitChildren_isOk v (p.getReflectionsByKind ReflectionKind.Class)
      (fun d => v.visitClass d)
      (fun x hx => by
        have hx2 := hc x hx
        simp only [Bool.and_eq_true] at hx2
        exact hx2.1)
      (fun x hx => by
        have hx2 := hc x hx
        simp only [Bool.and_eq_true] at hx2
        obtain ⟨i, hi2⟩ := visitInterface_isOk v x hx2.2
        exact ⟨{ i with kind := Kind.Class },
          (visitClass_ok_iff v x _).mpr ⟨i, hi2, rfl⟩⟩)
  exact ⟨interfaces ++ classes,
    (visitProject_eq_ok v p _).mpr ⟨interfaces, classes, his, hcs, rfl⟩⟩

/-- C2 witness: the well-formed project `exProjectOk` visits without
error. -/
theorem C2_no_failure_witness :
    ∃ out, vOff.visitProject exProjectOk = Except.ok out :=
  C2_no_failure_when_wellformed vOff exProjectOk (by decide)

/-- C3: a child reflection with `isExported = false` is excluded from the
mapped children when `includeNonExported` is unset or false (removing it
from the child list does not change the result), and included when the
option is `true` (its visit result appears in the output list). -/
theorem C3_export_filter (v : Visitor) (c : Reflection) (fl : ReflectionFlags)
    (hfl : c.flags = some fl) (hexp : fl.isExported = some false) :
    (v.options.includeNonExported ≠ some true →
      ∀ (T : Type) (vis : Reflection → Except Unit T) (pre post : List Reflection),
        v.visitChildren (pre ++ c :: post) vis = v.visitChildren (pre ++ post) vis) ∧
    (v.options.includeNonExported = some true →
      ∀ (T : Type) (vis : Reflection → Except Unit T) (pre post : List Reflection)
        (out : List T),
        v.visitChildren (pre ++ c :: post) vis = Except.ok out →
        ∃ y, vis c = Except.ok y ∧ y ∈ out) := by
  constructor
  · intro hopt T vis pre post
    have hincl : (v.options.includeNonExported == some true) = false := by
      cases hv : v.options.includeNonExported with
      | none => rfl
      | some b =>
        cases b with
        | false => rfl
        | true => exact absurd hv hopt
    have hfilter : v.filterReflection c = Except.ok false := by
      rw [filterReflection_of_flags v c fl hfl, hexp, hincl]
      rfl
    unfold Visitor.visitChildren
    rw [filterE_middle_false (v.filterReflection) c hfilter pre post]
  · intro hopt T vis pre post out h
    have hfilter : v.filterReflection c = Except.ok true := by
      rw [filterReflection_of_flags v c fl hfl, hexp, hopt]
      rfl
    obtain ⟨l', hl', hmap⟩ := (visitChildren_eq_ok v _ vis out).mp h
    have hmem := filterE_middle_true_mem (v.filterReflection) c hfilter pre post l' hl'
    exact mapE_ok_mem vis l' out hmap c hmem

/-- C3 witness: the non-exported method `exMethodC3` is dropped under the
default option and kept under `includeNonExported = true`. -/
theorem C3_export_filter_witness :
    (vOff.visitChildren ([] ++ exMethodC3 :: []) (fun c => vOff.visitMethod c) =
      vOff.visitChildren ([] ++ []) (fun c => vOff.visitMethod c)) ∧
    ∃ y, (fun c => vOn.visitMethod c) exMethodC3 = Except.ok y ∧
      y ∈ [exMethodC3Out] := by
  constructor
  · exact (C3_export_filter vOff exMethodC3 nonExportedFlags rfl rfl).1
      (by decide) ITsMethod (fun c => vOff.visitMethod c) [] []
  · exact (C3_export_filter vOn exMethodC3 nonExportedFlags rfl rfl).2
      rfl ITsMethod (fun c => vOn.visitMethod c) [] [] [exMethodC3Out] rfl

/-- C4: for every comment, the plain text passed to the renderer is the
short summary text, then — only if the body text is present — a blank
line followed by it, then — only if the tag list is present — a blank
line followed by the non-`@default`, non-`@deprecated` tags formatted
`@tagName tagText`, one per line, in original order; an absent comment
yields absent documentation; and the concrete example comment assembles
to exactly `"S\n\nT\n\n@param x: the value"`. -/
theorem C4_comment_assembly (v : Visitor) (c : Comment) :
    v.renderComment (some c) =
      some (v.renderBlock
        (c.shortText ++
          (if c.text = "" then "" else "\n\n" ++ c.text) ++
          (match c.tags with
           | none => ""
           | some ts =>
             "\n\n" ++ String.intercalate "\n"
               ((ts.filter (fun tag =>
                   !(tag.tagName == "default") && !(tag.tagName == "deprecated"))).map
                 (fun tag => "@" ++ tag.tagName ++ " " ++ tag.text))))) ∧
    v.renderComment none = none ∧
    assembleComment exCommentC4 = "S\n\nT\n\n@param x: the value" := by
  refine ⟨?_, rfl, by decide⟩
  simp only [Visitor.renderComment, Option.some.injEq]
  congr 1
  unfold assembleComment
  cases htags : c.tags <;>
    by_cases hst : c.shortText = "" <;>
    by_cases htx : c.text = "" <;>
    simp only [hst, htx, beq_self_eq_true, if_true, if_false, ite_true, ite_false,
      beq_iff_eq, if_neg, string_empty_append] <;>
    (ext1; simp [String.data_append, hst, htx])

/-- C5: `isDeprecated` is absent when the comment has no `@deprecated`
tag, exactly `true` when the tag text trims to empty, the trimmed text
when it is nonempty, and never the boolean `false`. -/
theorem C5_is_deprecated (r : Reflection) (tag : CommentTag) :
    (getCommentTag r.comment "deprecated" = none → getIsDeprecated r = none) ∧
    (getCommentTag r.comment "deprecated" = some tag → jsTrim tag.text = "" →
      getIsDeprecated r = some (Sum.inl true)) ∧
    (getCommentTag r.comment "deprecated" = some tag → jsTrim tag.text ≠ "" →
      getIsDeprecated r = some (Sum.inr (jsTrim tag.text))) ∧
    getIsDeprecated r ≠ some (Sum.inl false) := by
  refine ⟨?_, ?_, ?_, ?_⟩
  · intro h
    simp [getIsDeprecated, h]
  · intro h he
    simp [getIsDeprecated, h, he]
  · intro h he
    simp [getIsDeprecated, h, he]
  · cases h : getCommentTag r.comment "deprecated" with
    | none => simp [getIsDeprecated, h]
    | some tag2 =>
      simp only [getIsDeprecated, h]
      split <;> simp

/-- C5 witness: a `@deprecated  not worth it  ` tag yields the trimmed
reason string. -/
theorem C5_is_deprecated_witness :
    getIsDeprecated exReflC5 = some (Sum.inr (jsTrim "  not worth it  ")) ∧
    jsTrim "  not worth it  " = "not worth it" :=
  ⟨(C5_is_deprecated exReflC5
      { tagName := "deprecated", text := "  not worth it  " }).2.2.1 rfl (by decide),
   by decide⟩

/-- C6: the explicit default value wins verbatim whenever present
(regardless of any `@default` tag); otherwise the trimmed `@default` tag
text is used; otherwise the default value is absent. -/
theorem C6_default_value (r : Reflection) (w : String) (tag : CommentTag) :
    (r.defaultValue = some w → getDefaultValue r = some w) ∧
    (r.defaultValue = none → getCommentTag r.comment "default" = some tag →
      getDefaultValue r = some (jsTrim tag.text)) ∧
    (r.defaultValue = none → getCommentTag r.comment "default" = none →
      getDefaultValue r = none) := by
  refine ⟨?_, ?_, ?_⟩
  · intro h
    simp [getDefaultValue, h]
  · intro h1 h2
    simp [getDefaultValue, h1, h2]
  · intro h1 h2
    simp [getDefaultValue, h1, h2]

/-- C6 witness: a `@default` tag with text `"  42  "` derives `"42"`, and
an explicit value beats a conflicting tag. -/
theorem C6_default_value_witness :
    getDefaultValue exReflC6 = some "42" ∧
    getDefaultValue exReflC6both = some "explicit" := by
  constructor
  · have h := (C6_default_value exReflC6 ""
      { tagName := "default", text := "  42  " }).2.1 rfl rfl
    rw [h]
    decide
  · exact (C6_default_value exReflC6both "explicit"
      { tagName := "default", text := "other" }).1 rfl

/-- C7: whenever `visitInterface` succeeds on a reflection, `visitClass`
succeeds on the same reflection with an entry equal in every field
(documentation, fileName, flags, name, methods, properties) except the
kind tag, which is `Class` instead of `Interface`. -/
theorem C7_class_matches_interface (v : Visitor) (d : Reflection)
    (i : ITsInterface) (h : v.visitInterface d = Except.ok i) :
    ∃ c, v.visitClass d = Except.ok c ∧
      c.documentation = i.documentation ∧
      c.fileName = i.fileName ∧
      c.flags = i.flags ∧
      c.name = i.name ∧
      c.methods = i.methods ∧
      c.properties = i.properties ∧
      c.kind = Kind.Class ∧
      i.kind = Kind.Interface := by
  refine ⟨{ i with kind := Kind.Class }, ?_, rfl, rfl, rfl, rfl, rfl, rfl, rfl, ?_⟩
  · exact (visitClass_ok_iff v d _).mpr ⟨i, h, rfl⟩
  · exact visitInterface_ok_kind v d i h

/-- C7 witness: the empty exported interface `exIfaceEmpty` visited as an
interface and as a class. -/
theorem C7_class_matches_interface_witness :
    ∃ c, vOff.visitClass exIfaceEmpty = Except.ok c ∧
      c.documentation = exIfaceEmptyOut.documentation ∧
      c.fileName = exIfaceEmptyOut.fileName ∧
      c.flags = exIfaceEmptyOut.flags ∧
      c.name = exIfaceEmptyOut.name ∧
      c.methods = exIfaceEmptyOut.methods ∧
      c.properties = exIfaceEmptyOut.properties ∧
      c.kind = Kind.Class ∧
      exIfaceEmptyOut.kind = Kind.Interface :=
  C7_class_matches_interface vOff exIfaceEmpty exIfaceEmptyOut rfl

/-- C8: a successful `visitProject` returns the entries of a sublist (in
discovery order) of the interface-kind reflections, each visited and of
output kind `Interface`, followed by the entries of a sublist (in
discovery order) of the class-kind reflections, each visited and of
output kind `Class`; the empty project yields `ok []` with no error. -/
theorem C8_project_output_order (v : Visitor) (p : ProjectReflection)
    (out : List ITsInterface) (h : v.visitProject p = Except.ok out) :
    (∃ ris rcs eis ecs,
      List.Sublist ris (p.getReflectionsByKind ReflectionKind.Interface) ∧
      List.Sublist rcs (p.getReflectionsByKind ReflectionKind.Class) ∧
      mapE (fun d => v.visitInterface d) ris = Except.ok eis ∧
      mapE (fun d => v.visitClass d) rcs = Except.ok ecs ∧
      out = eis ++ ecs ∧
      (∀ e ∈ eis, e.kind = Kind.Interface) ∧
      (∀ e ∈ ecs, e.kind = Kind.Class)) ∧
    v.visitProject ⟨[]⟩ = Except.ok [] := by
  constructor
  · obtain ⟨interfaces, classes, h1, h2, rfl⟩ := (visitProject_eq_ok v p out).mp h
    obtain ⟨ris, hris, hmis⟩ := (visitChildren_eq_ok v _ _ interfaces).mp h1
    obtain ⟨rcs, hrcs, hmcs⟩ := (visitChildren_eq_ok v _ _ classes).mp h2
    refine ⟨ris, rcs, interfaces, classes,
      filterE_sublist _ _ _ hris, filterE_sublist _ _ _ hrcs, hmis, hmcs, rfl, ?_, ?_⟩
    · exact mapE_forall _ _ (fun x y hy => visitInterface_ok_kind v x y hy) _ _ hmis
    · exact mapE_forall _ _ (fun x y hy => visitClass_ok_kind v x y hy) _ _ hmcs
  · rfl

/-- C8 witness: the two-entry project `exProjectOk` yields the interface
entry followed by the class entry. -/
theorem C8_project_output_order_witness :
    (∃ ris rcs eis ecs,
      List.Sublist ris (exProjectOk.getReflectionsByKind ReflectionKind.Interface) ∧
      List.Sublist rcs (exProjectOk.getReflectionsByKind ReflectionKind.Class) ∧
      mapE (fun d => vOff.visitInterface d) ris = Except.ok eis ∧
      mapE (fun d => vOff.visitClass d) rcs = Except.ok ecs ∧
      [exIfaceOkOut, exClassOkOut] = eis ++ ecs ∧
      (∀ e ∈ eis, e.kind = Kind.Interface) ∧
      (∀ e ∈ ecs, e.kind = Kind.Class)) ∧
    vOff.visitProject ⟨[]⟩ = Except.ok [] :=
  C8_project_output_order vOff exProjectOk [exIfaceOkOut, exClassOkOut] rfl

/-- C9: the traversal is deterministic: the whole visitor state is its
five declared fields (renderer, two resolvers, path helper, options), and
two visitors agreeing on them produce identical output sequences on the
same immutable project. -/
theorem C9_deterministic (v1 v2 : Visitor) (p : ProjectReflection)
    (h1 : v1.renderBlock = v2.renderBlock)
    (h2 : v1.resolveTypeString = v2.resolveTypeString)
    (h3 : v1.resolveSignature = v2.resolveSignature)
    (h4 : v1.relativeToCwd = v2.relativeToCwd)
    (h5 : v1.options = v2.options) :
    v1.visitProject p = v2.visitProject p := by
  have hv : v1 = v2 := by
    cases v1
    cases v2
    simp_all
  rw [hv]

/-- C9 witness: two invocations on the same project agree. -/
theorem C9_deterministic_witness :
    vOff.visitProject exProjectOk = vOff.visitProject exProjectOk :=
  C9_deterministic vOff vOff exProjectOk rfl rfl rfl rfl rfl

/-- C10: a signature whose parameter list is absent still produces a
present, empty `parameters` field, while a method whose signatures list
is absent raises — the code assumes methods always carry signatures. -/
theorem C10_absent_lists (v : Visitor) (sig d : Reflection)
    (hp : sig.parameters = none) (hs : d.signatures = none) :
    (v.visitSignature sig).parameters = [] ∧
    v.visitMethod d = Except.error () := by
  constructor
  · simp [Visitor.visitSignature, hp]
  · simp [Visitor.visitMethod, hs]

/-- C10 witness: concrete signature without parameters and method without
signatures. -/
theorem C10_absent_lists_witness :
    (vOff.visitSignature exSigNoParams).parameters = [] ∧
    vOff.visitMethod exMethodC2 = Except.error () :=
  C10_absent_lists vOff exSigNoParams exMethodC2 rfl rfl
